import Mathlib

/-!
Verification of the odm-demo-cloud control plane (src/server.js, the current
server implementation, lines 138-375 of the concatenated file).

The JavaScript server keeps five in-memory `Map`s (agents, pairingSessions,
agentDevices, jobs, agentJobQueue) and mutates them from HTTP handlers.  We
embed each handler as a pure function from a `ServerState` (plus the request
parameters and the current time) to a new `ServerState` paired with a result.

Modelling conventions:
* `Map` is modelled by `JsMap`, an association list whose `set` replaces an
  existing binding in place (preserving insertion order, as JS `Map.set` does)
  and appends a fresh binding at the end.
* Timestamps (`nowIso()` strings, `Date.now()` numbers) are modelled as `Nat`
  milliseconds; the ISO string produced by `nowIso()` is never empty, so JS
  truthiness of a stored timestamp is `Option.isSome`.
* Nondeterministic identifiers (`crypto.randomUUID()`, `makePairingCode()`)
  are passed in as explicit parameters.
* A JS falsy check `!x` on an optional string parameter is `optFalsy`.
* `capabilities` (a free-form JS object) is modelled opaquely as a
  `List String`; no claim depends on its contents.
-/

set_option autoImplicit false

namespace OdmCloud

/-- Association list with JS `Map` semantics (string keys). -/
abbrev JsMap (α : Type) := List (String × α)

namespace JsMap

variable {α : Type}

/-- `Map.get` / first binding for the key. -/
def find? (m : JsMap α) (k : String) : Option α :=
  match m with
  | [] => none
  | (k', v) :: rest => if k' = k then some v else find? rest k

/-- `Map.set`: replace in place if present, else append (insertion order kept). -/
def set (m : JsMap α) (k : String) (v : α) : JsMap α :=
  match m with
  | [] => [(k, v)]
  | (k', v') :: rest => if k' = k then (k', v) :: rest else (k', v') :: set rest k v

/-- `Map.has`. -/
def contains (m : JsMap α) (k : String) : Bool :=
  (find? m k).isSome

/-- `Array.from(m.values())`: values in insertion order. -/
def values (m : JsMap α) : List α :=
  m.map (·.2)

end JsMap

/-- Equality of handler results is decidable, so concrete runs can be
evaluated by `decide`. -/
instance instDecidableEqExcept {α β : Type} [DecidableEq α] [DecidableEq β] :
    DecidableEq (Except α β)
  | .error a, .error b =>
    if h : a = b then .isTrue (by rw [h])
    else .isFalse (by intro hc; cases hc; exact h rfl)
  | .error _, .ok _ => .isFalse (by intro hc; cases hc)
  | .ok _, .error _ => .isFalse (by intro hc; cases hc)
  | .ok a, .ok b =>
    if h : a = b then .isTrue (by rw [h])
    else .isFalse (by intro hc; cases hc; exact h rfl)

/-- JS falsy test for an optional string (`!x` is true for `undefined`/`null`/`""`). -/
def optFalsy : Option String → Bool
  | none => true
  | some s => s == ""

/-- Agent record, as created by `POST /agent/pairing/start` and mutated by the
heartbeat / devices / pairing handlers. -/
structure Agent where
  agentId : String
  tenantId : Option String
  displayName : String
  siteId : Option String
  paired : Bool
  online : Bool
  lastSeenAt : Option Nat
  agentVersion : String
  capabilities : List String
  pairedBy : Option String
  pairedAt : Option Nat
  createdAt : Nat
deriving DecidableEq, Repr

/-- Entry of `pairingSessions`: `{ agentId, expiresAt, usedAt }`. -/
structure PairingSession where
  agentId : String
  expiresAt : Nat
  usedAt : Option Nat
deriving DecidableEq, Repr

/-- A device as supplied in the body of `POST /agent/devices/report`. -/
structure DeviceIn where
  deviceId : Option String
  serialNumber : Option String
  model : Option String
  fwVersion : Option String
  status : Option String
deriving DecidableEq, Repr

/-- A device as stored in `agentDevices`. -/
structure Device where
  deviceId : String
  serialNumber : Option String
  model : String
  fwVersion : Option String
  status : String
  reportedAt : Nat
deriving DecidableEq, Repr

/-- Job payload, currently `{ artifactId }`. -/
structure Payload where
  artifactId : String
deriving DecidableEq, Repr

/-- Ledger record of a job (`jobs` map). -/
structure Job where
  jobId : String
  type : String
  agentId : String
  deviceId : String
  payload : Payload
  status : String
  progress : Int
  message : String
  createdAt : Nat
  updatedAt : Nat
  startedAt : Option Nat
  finishedAt : Option Nat
deriving DecidableEq, Repr

/-- Reduced job view returned by `GET /agent/jobs/next`. -/
structure JobDescriptor where
  jobId : String
  type : String
  agentId : String
  deviceId : String
  payload : Payload
deriving DecidableEq, Repr

/-- Row of the list returned by `GET /portal/agents`. -/
structure AgentView where
  agentId : String
  displayName : String
  siteId : Option String
  tenantId : Option String
  paired : Bool
  online : Bool
  lastSeenAt : Option Nat
  agentVersion : String
deriving DecidableEq, Repr

/-- The machine-readable error kinds surfaced by the handlers.  `internalError`
stands for the uncaught JS `TypeError` raised when a pairing session points at
an agent record that does not exist (the request aborts before any mutation). -/
inductive Err where
  | unknownAgent
  | missingPairingCode
  | invalidCode
  | codeAlreadyUsed
  | codeExpired
  | unknownJob
  | agentMismatch
  | missingDeviceId
  | missingArtifactId
  | missingDevices
  | internalError
deriving DecidableEq, Repr

/-- The five in-memory stores of the server. -/
structure ServerState where
  agents : JsMap Agent
  pairingSessions : JsMap PairingSession
  agentDevices : JsMap (List Device)
  jobs : JsMap Job
  agentJobQueue : JsMap (List String)
deriving DecidableEq, Repr

/-- The empty stores at process start. -/
def ServerState.empty : ServerState :=
  { agents := [], pairingSessions := [], agentDevices := [], jobs := [],
    agentJobQueue := [] }

/-- `ensureQueue(agentId)`: materialize an empty queue for the agent if absent,
returning the (possibly updated) map together with the agent's queue. -/
def ensureQueue (m : JsMap (List String)) (agentId : String) :
    JsMap (List String) × List String :=
  match JsMap.find? m agentId with
  | some q => (m, q)
  | none => (JsMap.set m agentId [], [])

/-- `POST /agent/pairing/start`: registers a fresh agent record (unpaired,
`online := false`, `lastSeenAt := null`) and a pairing session expiring ten
minutes after `now`.  The generated `agentId` and `pairingCode` are parameters. -/
def pairingStart (st : ServerState) (agentVersion hostname : Option String)
    (agentId pairingCode : String) (now : Nat) : ServerState × String × Nat :=
  let a : Agent :=
    { agentId := agentId, tenantId := none,
      displayName := hostname.getD "unpaired-agent",
      siteId := none, paired := false, online := false, lastSeenAt := none,
      agentVersion := agentVersion.getD "unknown", capabilities := [],
      pairedBy := none, pairedAt := none, createdAt := now }
  let s : PairingSession :=
    { agentId := agentId, expiresAt := now + 10 * 60 * 1000, usedAt := none }
  ({ st with agents := JsMap.set st.agents agentId a,
             pairingSessions := JsMap.set st.pairingSessions pairingCode s },
   pairingCode, now + 10 * 60 * 1000)

/-- `POST /agent/heartbeat`: refreshes `lastSeenAt`, sets the stored `online`
flag to `true` and overwrites version/capabilities when supplied. -/
def heartbeat (st : ServerState) (agentId agentVersion : Option String)
    (capabilities : Option (List String)) (now : Nat) :
    ServerState × Except Err Unit :=
  if optFalsy agentId then (st, .error .unknownAgent)
  else
    match JsMap.find? st.agents (agentId.getD "") with
    | none => (st, .error .unknownAgent)
    | some a =>
      let a' := { a with online := true, lastSeenAt := some now,
                         agentVersion := agentVersion.getD a.agentVersion,
                         capabilities := capabilities.getD a.capabilities }
      ({ st with agents := JsMap.set st.agents (agentId.getD "") a' }, .ok ())

/-- One stored device from one reported device (`??` defaults; a missing
`deviceId` gets the generated uuid for its index). -/
def mkDevice (freshIds : Nat → String) (now : Nat) (i : Nat) (d : DeviceIn) :
    Device :=
  { deviceId := d.deviceId.getD (freshIds i),
    serialNumber := d.serialNumber,
    model := d.model.getD "unknown",
    fwVersion := d.fwVersion,
    status := d.status.getD "unknown",
    reportedAt := now }

/-- `POST /agent/devices/report`: wholesale replacement of the agent's device
list, plus a `lastSeenAt` refresh. -/
def devicesReport (st : ServerState) (agentId : Option String)
    (devices : Option (List DeviceIn)) (freshIds : Nat → String) (now : Nat) :
    ServerState × Except Err Nat :=
  if optFalsy agentId then (st, .error .unknownAgent)
  else
    match JsMap.find? st.agents (agentId.getD "") with
    | none => (st, .error .unknownAgent)
    | some a =>
      match devices with
      | none => (st, .error .missingDevices)
      | some ds =>
        let mapped := ds.enum.map (fun p => mkDevice freshIds now p.1 p.2)
        let a' := { a with lastSeenAt := some now }
        ({ st with
            agentDevices := JsMap.set st.agentDevices (agentId.getD "") mapped,
            agents := JsMap.set st.agents (agentId.getD "") a' },
         .ok mapped.length)

/-- View sent to the agent for each pulled job. -/
def jobDescriptor (j : Job) : JobDescriptor :=
  { jobId := j.jobId, type := j.type, agentId := j.agentId,
    deviceId := j.deviceId, payload := j.payload }

/-- `GET /agent/jobs/next`: splices up to 3 job ids off the head of the queue
and returns the corresponding ledger records, reduced.  Note: the handler does
not touch the agent record (no `lastSeenAt` refresh), hence `_now` is unused. -/
def pullNext (st : ServerState) (agentId : Option String) (_now : Nat) :
    ServerState × Except Err (List JobDescriptor) :=
  if optFalsy agentId then (st, .error .unknownAgent)
  else
    let aid := agentId.getD ""
    if JsMap.contains st.agents aid then
      let eq0 := ensureQueue st.agentJobQueue aid
      let st1 := { st with agentJobQueue := eq0.1 }
      let queue := eq0.2
      if queue.isEmpty then (st1, .ok [])
      else
        let jobIds := queue.take 3
        let rest := queue.drop 3
        let payload := (jobIds.filterMap (JsMap.find? st.jobs)).map jobDescriptor
        ({ st1 with agentJobQueue := JsMap.set st1.agentJobQueue aid rest },
         .ok payload)
    else (st, .error .unknownAgent)

/-- The status a ledger record holds after the `if (status) j.status = status`
partial update: the supplied status when truthy, else the old one. -/
def statusAfter (old : String) : Option String → String
  | some s => if s == "" then old else s
  | none => old

/-- `if (status) j.status = status` — the status overwrite when truthy. -/
def stepStatus (j : Job) (status : Option String) : Job :=
  match status with
  | some s => if s == "" then j else { j with status := s }
  | none => j

/-- `if (typeof progress === "number") j.progress = Math.max(0, Math.min(100, progress))`. -/
def stepProgress (j : Job) (progress : Option Int) : Job :=
  match progress with
  | some p => { j with progress := max 0 (min 100 p) }
  | none => j

/-- `if (message) j.message = message`. -/
def stepMessage (j : Job) (message : Option String) : Job :=
  match message with
  | some m => if m == "" then j else { j with message := m }
  | none => j

/-- `if (j.status === "running" && !j.startedAt) j.startedAt = nowIso()`. -/
def latchStarted (j : Job) (now : Nat) : Job :=
  if j.status == "running" && j.startedAt.isNone
  then { j with startedAt := some now } else j

/-- `if ((j.status === "succeeded" || j.status === "failed") && !j.finishedAt)
j.finishedAt = nowIso()`. -/
def latchFinished (j : Job) (now : Nat) : Job :=
  if (j.status == "succeeded" || j.status == "failed") && j.finishedAt.isNone
  then { j with finishedAt := some now } else j

/-- The update block of `POST /agent/jobs/:jobId/progress` applied to one
ledger record: the three partial updates in source order, then the `startedAt`
/ `finishedAt` latches, then the `updatedAt` refresh. -/
def applyReport (j : Job) (status : Option String) (progress : Option Int)
    (message : Option String) (now : Nat) : Job :=
  { latchFinished
      (latchStarted (stepMessage (stepProgress (stepStatus j status) progress)
        message) now) now
    with updatedAt := now }

/-- `POST /agent/jobs/:jobId/progress`: partial update of a ledger record with
progress clamped to `[0, 100]`, plus the `startedAt` / `finishedAt` latches. -/
def reportProgress (st : ServerState) (jobId : String)
    (agentId status : Option String) (progress : Option Int)
    (message : Option String) (now : Nat) : ServerState × Except Err Unit :=
  match JsMap.find? st.jobs jobId with
  | none => (st, .error .unknownJob)
  | some j =>
    if !optFalsy agentId && !(j.agentId == agentId.getD "") then
      (st, .error .agentMismatch)
    else
      ({ st with
          jobs := JsMap.set st.jobs jobId (applyReport j status progress message now) },
       .ok ())

/-- `POST /portal/agents/pair`: claim an agent by pairing code. -/
def pair (st : ServerState)
    (pairingCode tenantId userId displayName siteId : Option String)
    (now : Nat) : ServerState × Except Err String :=
  if optFalsy pairingCode then (st, .error .missingPairingCode)
  else
    let code := pairingCode.getD ""
    match JsMap.find? st.pairingSessions code with
    | none => (st, .error .invalidCode)
    | some session =>
      if session.usedAt.isSome then (st, .error .codeAlreadyUsed)
      else if session.expiresAt < now then (st, .error .codeExpired)
      else
        match JsMap.find? st.agents session.agentId with
        | none => (st, .error .internalError)
        | some agent =>
          let agent' := { agent with
            tenantId := some (tenantId.getD "demo-tenant"),
            displayName := displayName.getD agent.displayName,
            siteId := siteId,
            paired := true,
            pairedBy := some (userId.getD "demo-user"),
            pairedAt := some now }
          let session' := { session with usedAt := some now }
          ({ st with
              agents := JsMap.set st.agents agent.agentId agent',
              pairingSessions := JsMap.set st.pairingSessions code session' },
           .ok agent.agentId)

/-- Filter of `GET /portal/agents`: `!tenantId || a.tenantId === tenantId`. -/
def tenantFilterMatch (tenantId : Option String) (a : Agent) : Bool :=
  optFalsy tenantId || a.tenantId == tenantId

/-- Row built for each agent by `GET /portal/agents` — note `online` is read
straight from the stored field. -/
def agentView (a : Agent) : AgentView :=
  { agentId := a.agentId, displayName := a.displayName, siteId := a.siteId,
    tenantId := a.tenantId, paired := a.paired, online := a.online,
    lastSeenAt := a.lastSeenAt, agentVersion := a.agentVersion }

/-- `GET /portal/agents`: list (optionally tenant-filtered), read-only. -/
def listAgents (st : ServerState) (tenantId : Option String) : List AgentView :=
  ((JsMap.values st.agents).filter (tenantFilterMatch tenantId)).map agentView

/-- `POST /portal/agents/:agentId/jobs/firmware-update`: validates agent and
fields, creates a `queued` ledger record and appends its id to the agent's
queue.  The generated `jobId` is a parameter.  There is no online check of any
kind in this handler. -/
def enqueueFirmwareUpdate (st : ServerState) (agentId : String)
    (deviceId artifactId : Option String) (jobId : String) (now : Nat) :
    ServerState × Except Err String :=
  if !(JsMap.contains st.agents agentId) then (st, .error .unknownAgent)
  else if optFalsy deviceId then (st, .error .missingDeviceId)
  else if optFalsy artifactId then (st, .error .missingArtifactId)
  else
    let job : Job :=
      { jobId := jobId, type := "firmware-update", agentId := agentId,
        deviceId := deviceId.getD "",
        payload := { artifactId := artifactId.getD "" },
        status := "queued", progress := 0, message := "queued",
        createdAt := now, updatedAt := now, startedAt := none,
        finishedAt := none }
    let eq0 := ensureQueue st.agentJobQueue agentId
    ({ st with jobs := JsMap.set st.jobs jobId job,
               agentJobQueue := JsMap.set eq0.1 agentId (eq0.2 ++ [jobId]) },
     .ok jobId)

/-- `GET /portal/jobs/:jobId`: read-only ledger lookup. -/
def getJob (st : ServerState) (jobId : String) : Except Err Job :=
  match JsMap.find? st.jobs jobId with
  | none => .error .unknownJob
  | some j => .ok j

/-- Modelled from the spec: the `POST /portal/agents/:agentId/unpair` handler
is not part of src/server.js (only its dashboard caller is in src/).  Per the
spec it fails with `UnknownAgent` if the agent is absent, clears `paired`,
`tenantId`, `siteId`, `pairedAt`, `pairedBy`, and discards the agent's job
queue entirely, leaving the jobs ledger untouched. -/
def unpair (st : ServerState) (agentId : String) : ServerState × Except Err Unit :=
  match JsMap.find? st.agents agentId with
  | none => (st, .error .unknownAgent)
  | some a =>
    let a' := { a with paired := false, tenantId := none, siteId := none,
                       pairedAt := none, pairedBy := none }
    ({ st with agents := JsMap.set st.agents agentId a',
               agentJobQueue := JsMap.set st.agentJobQueue agentId [] },
     .ok ())

/-- The `isOnline` contract as the specification words it (§4.1):
`false` when `lastSeenAt` is absent, otherwise true iff
`0 <= now - lastSeenAt < ttl` with `ttl = 15000` ms (negative elapsed time is
offline).  This definition follows the spec, not the source; the source has no
such function, which is what the C1 counterexample exhibits. -/
def isOnlineSpec (lastSeenAt : Option Nat) (now : Nat) : Bool :=
  match lastSeenAt with
  | none => false
  | some t => t ≤ now && now - t < 15000

/-! ## Request traces -/

/-- One request to a mutating endpoint, with its nondeterministic inputs
(generated identifiers, current time) made explicit. -/
inductive Op where
  | pairingStart (agentVersion hostname : Option String)
      (agentId pairingCode : String) (now : Nat)
  | heartbeat (agentId agentVersion : Option String)
      (capabilities : Option (List String)) (now : Nat)
  | devicesReport (agentId : Option String) (devices : Option (List DeviceIn))
      (freshIds : Nat → String) (now : Nat)
  | pullNext (agentId : Option String) (now : Nat)
  | reportProgress (jobId : String) (agentId status : Option String)
      (progress : Option Int) (message : Option String) (now : Nat)
  | pair (pairingCode tenantId userId displayName siteId : Option String)
      (now : Nat)
  | enqueue (agentId : String) (deviceId artifactId : Option String)
      (jobId : String) (now : Nat)
  | unpair (agentId : String)

/-- State transition of one request (the response is discarded). -/
def applyOp (st : ServerState) : Op → ServerState
  | .pairingStart av hn aid code now => (pairingStart st av hn aid code now).1
  | .heartbeat aid av caps now => (heartbeat st aid av caps now).1
  | .devicesReport aid ds fresh now => (devicesReport st aid ds fresh now).1
  | .pullNext aid now => (pullNext st aid now).1
  | .reportProgress jid aid s p m now => (reportProgress st jid aid s p m now).1
  | .pair code tid uid dn sid now => (pair st code tid uid dn sid now).1
  | .enqueue aid dev art jid now => (enqueueFirmwareUpdate st aid dev art jid now).1
  | .unpair aid => (unpair st aid).1

/-- Run a sequence of requests. -/
def run (st : ServerState) (ops : List Op) : ServerState :=
  ops.foldl applyOp st

/-- Does this request re-issue the given pairing code?  Overwriting a session
via `pairing/start` is the only way a used code's `usedAt` could be reset. -/
def reissuesCode (code : String) : Op → Prop
  | .pairingStart _ _ _ c _ => c = code
  | _ => False

/-- The id of the job the request would create, if it is an enqueue request. -/
def opEnqueueId : Op → Option String
  | .enqueue _ _ _ jid _ => some jid
  | _ => none

/-- Job ids enqueued along a trace. -/
def enqueueIds (ops : List Op) : List String :=
  ops.filterMap opEnqueueId

/-- Queue/ledger coherence: every job id in any agent's queue names a ledger
record whose `agentId` is that agent. -/
def QLInv (st : ServerState) : Prop :=
  ∀ aid q, JsMap.find? st.agentJobQueue aid = some q →
    ∀ jid ∈ q, ∃ j, JsMap.find? st.jobs jid = some j ∧ j.agentId = aid

/-- The pairing session stored for `code` has been consumed (`usedAt` set). -/
def codeUsed (st : ServerState) (code : String) : Prop :=
  ∃ s, JsMap.find? st.pairingSessions code = some s ∧ s.usedAt.isSome = true

/-! ## Concrete scenario used by counterexamples and witnesses

Agent `"A"` registers via pairing-start at time 0 (code `"AAAA-BBBB"`); in
`exSt2` it has additionally sent one heartbeat at time 0; `exStJ` additionally
has one enqueued job `"J1"`; `exSt5` has five enqueued jobs; `exJob` is the
ledger record `"J1"` of `exStJ`. -/

def exSt1 : ServerState :=
  (pairingStart ServerState.empty none none "A" "AAAA-BBBB" 0).1

def exSt2 : ServerState :=
  (heartbeat exSt1 (some "A") none none 0).1

def exStJ : ServerState :=
  (enqueueFirmwareUpdate exSt1 "A" (some "D1") (some "FW9") "J1" 5).1

def exJob : Job :=
  { jobId := "J1", type := "firmware-update", agentId := "A", deviceId := "D1",
    payload := { artifactId := "FW9" }, status := "queued", progress := 0,
    message := "queued", createdAt := 5, updatedAt := 5, startedAt := none,
    finishedAt := none }

def exSt5 : ServerState :=
  run exSt1
    [.enqueue "A" (some "D1") (some "F1") "J1" 1,
     .enqueue "A" (some "D1") (some "F2") "J2" 2,
     .enqueue "A" (some "D1") (some "F3") "J3" 3,
     .enqueue "A" (some "D1") (some "F4") "J4" 4,
     .enqueue "A" (some "D1") (some "F5") "J5" 5]

/-- Agent `"A"` claimed into tenant `"acme"` at time 100, then given three
firmware-update jobs. -/
def exStP : ServerState :=
  run exSt1
    [.pair (some "AAAA-BBBB") (some "acme") (some "bob") none none 100,
     .enqueue "A" (some "D1") (some "F1") "K1" 101,
     .enqueue "A" (some "D1") (some "F2") "K2" 102,
     .enqueue "A" (some "D1") (some "F3") "K3" 103]

/-- The agent record of `"A"` inside `exStP`. -/
def exAgentP : Agent :=
  { agentId := "A", tenantId := some "acme", displayName := "unpaired-agent",
    siteId := none, paired := true, online := false, lastSeenAt := none,
    agentVersion := "unknown", capabilities := [], pairedBy := some "bob",
    pairedAt := some 100, createdAt := 0 }

/-! ## Basic lemmas about the `JsMap` model -/

theorem JsMap.find?_set_self {α : Type} (m : JsMap α) (k : String) (v : α) :
    JsMap.find? (JsMap.set m k v) k = some v := by
  induction m with
  | nil => simp [JsMap.set, JsMap.find?]
  | cons p rest ih =>
    obtain ⟨k', v'⟩ := p
    by_cases h : k' = k <;> simp [JsMap.set, JsMap.find?, h, ih]

theorem JsMap.find?_set_ne {α : Type} (m : JsMap α) (k k' : String) (v : α)
    (h : k ≠ k') : JsMap.find? (JsMap.set m k v) k' = JsMap.find? m k' := by
  induction m with
  | nil => simp [JsMap.set, JsMap.find?, h]
  | cons p rest ih =>
    obtain ⟨k₀, v₀⟩ := p
    by_cases h₀ : k₀ = k
    · subst h₀; simp [JsMap.set, JsMap.find?, h]
    · simp [JsMap.set, JsMap.find?, h₀, ih]

theorem JsMap.contains_set_self {α : Type} (m : JsMap α) (k : String) (v : α) :
    JsMap.contains (JsMap.set m k v) k = true := by
  simp [JsMap.contains, JsMap.find?_set_self]

theorem ensureQueue_snd (m : JsMap (List String)) (aid : String) :
    (ensureQueue m aid).2 = (JsMap.find? m aid).getD [] := by
  unfold ensureQueue
  cases JsMap.find? m aid <;> simp

theorem ensureQueue_find? (m : JsMap (List String)) (aid : String) :
    JsMap.find? (ensureQueue m aid).1 aid = some ((JsMap.find? m aid).getD []) := by
  unfold ensureQueue
  cases h : JsMap.find? m aid
  · simp [JsMap.find?_set_self]
  · simp [h]

theorem ensureQueue_find?_ne (m : JsMap (List String)) (aid k : String)
    (h : aid ≠ k) : JsMap.find? (ensureQueue m aid).1 k = JsMap.find? m k := by
  unfold ensureQueue
  cases JsMap.find? m aid
  · simp [JsMap.find?_set_ne _ _ _ _ h]
  · simp

/-! ## C1: the listing's online flag is stored, not derived -/

/-- C1 counterexample: agent `"A"` last heartbeated at time 0, so at read time
100000 ms the spec's derivation `isOnline(lastSeenAt, now, 15000)` is `false`;
yet `GET /portal/agents` exposes `online = true`, read from a stored field.
The flag is stored (set by the heartbeat handler), not derived at read time,
refuting the claim. -/
theorem claim_C1_counterexample :
    (listAgents exSt2 none).map (fun v => v.online) = [true]
    ∧ (listAgents exSt2 none).map (fun v => v.lastSeenAt) = [some 0]
    ∧ isOnlineSpec (some 0) 100000 = false
    ∧ (JsMap.find? exSt2.agents "A").map (fun a => a.online) = some true := by
  decide

/-- C1 (amended): the online flag exposed by the agent-listing operation is the
stored `online` field of the agent record: registration (pairing-start)
initializes it to `false`, a successful heartbeat sets it to `true`, and the
listing exposes it unchanged; it is not derived from `lastSeenAt` and no
15-second bound is applied anywhere (the listing takes no time input). -/
theorem claim_C1_online_flag_stored :
    (∀ a : Agent, (agentView a).online = a.online)
    ∧ (∀ st av hn aid code now,
        (JsMap.find? ((pairingStart st av hn aid code now).1).agents aid).map
          (fun a => a.online) = some false)
    ∧ (∀ st (aid : String) av caps now (a : Agent), aid ≠ "" →
        JsMap.find? st.agents aid = some a →
        (JsMap.find? ((heartbeat st (some aid) av caps now).1).agents aid).map
          (fun a => (a.online, a.lastSeenAt)) = some (true, some now)) := by
  refine ⟨fun a => rfl, fun st av hn aid code now => ?_, ?_⟩
  · simp [pairingStart, JsMap.find?_set_self]
  · intro st aid av caps now a hne hfind
    have hfalsy : optFalsy (some aid) = false := by
      simp [optFalsy, hne]
    simp [heartbeat, hfalsy, hfind, JsMap.find?_set_self]

/-- Witness for the amended C1 at a concrete input. -/
theorem claim_C1_online_flag_stored_witness :
    (JsMap.find? ((heartbeat exSt1 (some "A") none none 7).1).agents "A").map
      (fun a => (a.online, a.lastSeenAt)) = some (true, some 7) := by
  exact claim_C1_online_flag_stored.2.2 exSt1 "A" none none 7
    { agentId := "A", tenantId := none, displayName := "unpaired-agent",
      siteId := none, paired := false, online := false, lastSeenAt := none,
      agentVersion := "unknown", capabilities := [], pairedBy := none,
      pairedAt := none, createdAt := 0 }
    (by decide) (by decide)

/-! ## C8: pull-next does not refresh lastSeenAt -/

/-- C8 counterexample: registered agent `"A"` has `lastSeenAt = null`; after a
pull-next call at time 999 its `lastSeenAt` is still `null`, not the current
time — the handler performs no liveness refresh. -/
theorem claim_C8_counterexample :
    (JsMap.find? ((pullNext exSt1 (some "A") 999).1).agents "A").map
      (fun a => a.lastSeenAt) = some none := by
  decide

/-- C8 (amended): a pull-next call never modifies the agent store at all — in
particular the agent's `lastSeenAt` is left unchanged; a job-queue poll does
not count as liveness contact in the code (only registration metadata writes,
heartbeats and device reports touch `lastSeenAt`). -/
theorem claim_C8_pull_no_liveness_refresh :
    ∀ (st : ServerState) (aid : Option String) (now : Nat),
      ((pullNext st aid now).1).agents = st.agents := by
  intro st aid now
  unfold pullNext
  split
  · rfl
  · dsimp only
    split
    · split <;> rfl
    · rfl

/-! ## Lemmas about the progress-report update block -/

theorem stepStatus_eq (j : Job) (s : Option String) :
    stepStatus j s = { j with status := statusAfter j.status s } := by
  cases s with
  | none => rfl
  | some v => cases hv : v == "" <;> simp [stepStatus, statusAfter, hv]

theorem stepProgress_eq (j : Job) (p : Option Int) :
    stepProgress j p
      = { j with progress := match p with
                  | some v => max 0 (min 100 v)
                  | none => j.progress } := by
  cases p <;> rfl

theorem stepMessage_eq (j : Job) (m : Option String) :
    stepMessage j m
      = { j with message := match m with
                  | some v => if v == "" then j.message else v
                  | none => j.message } := by
  cases m with
  | none => rfl
  | some v => cases hv : v == "" <;> simp [stepMessage, hv]

theorem latchStarted_eq (j : Job) (now : Nat) :
    latchStarted j now
      = { j with startedAt := if j.status == "running" && j.startedAt.isNone
                              then some now else j.startedAt } := by
  unfold latchStarted; split <;> rfl

theorem latchFinished_eq (j : Job) (now : Nat) :
    latchFinished j now
      = { j with finishedAt :=
            if (j.status == "succeeded" || j.status == "failed")
               && j.finishedAt.isNone
            then some now else j.finishedAt } := by
  unfold latchFinished; split <;> rfl

theorem applyReport_status (j : Job) (s : Option String) (p : Option Int)
    (m : Option String) (now : Nat) :
    (applyReport j s p m now).status = statusAfter j.status s := by
  simp [applyReport, latchFinished_eq, latchStarted_eq, stepMessage_eq,
        stepProgress_eq, stepStatus_eq]

theorem applyReport_agentId (j : Job) (s : Option String) (p : Option Int)
    (m : Option String) (now : Nat) :
    (applyReport j s p m now).agentId = j.agentId := by
  simp [applyReport, latchFinished_eq, latchStarted_eq, stepMessage_eq,
        stepProgress_eq, stepStatus_eq]

theorem applyReport_progress_some (j : Job) (s : Option String) (v : Int)
    (m : Option String) (now : Nat) :
    (applyReport j s (some v) m now).progress = max 0 (min 100 v) := by
  simp [applyReport, latchFinished_eq, latchStarted_eq, stepMessage_eq,
        stepProgress_eq, stepStatus_eq]

theorem applyReport_startedAt (j : Job) (s : Option String) (p : Option Int)
    (m : Option String) (now : Nat) :
    (applyReport j s p m now).startedAt
      = (if statusAfter j.status s == "running" && j.startedAt.isNone
         then some now else j.startedAt) := by
  simp [applyReport, latchFinished_eq, latchStarted_eq, stepMessage_eq,
        stepProgress_eq, stepStatus_eq]

theorem applyReport_finishedAt (j : Job) (s : Option String) (p : Option Int)
    (m : Option String) (now : Nat) :
    (applyReport j s p m now).finishedAt
      = (if (statusAfter j.status s == "succeeded"
             || statusAfter j.status s == "failed")
            && j.finishedAt.isNone
         then some now else j.finishedAt) := by
  simp [applyReport, latchFinished_eq, latchStarted_eq, stepMessage_eq,
        stepProgress_eq, stepStatus_eq]

/-- Successful run of the progress handler: the job found in the ledger is
replaced by `applyReport` of it (ownership guard passed). -/
theorem reportProgress_ok (st : ServerState) (jobId : String) (j : Job)
    (aid s : Option String) (p : Option Int) (m : Option String) (now : Nat)
    (hfind : JsMap.find? st.jobs jobId = some j)
    (hok : optFalsy aid = true ∨ aid.getD "" = j.agentId) :
    reportProgress st jobId aid s p m now
      = ({ st with jobs := JsMap.set st.jobs jobId (applyReport j s p m now) },
         .ok ()) := by
  have hguard : (!optFalsy aid && !(j.agentId == aid.getD "")) = false := by
    rcases hok with h | h
    · simp [h]
    · simp [h]
  simp [reportProgress, hfind, hguard]

/-! ## C2: enqueue performs no online check -/

/-- C2 counterexample: agent `"A"` is registered but has never been heard from
(`lastSeenAt = null`, stored `online = false`, and the spec's own derivation
`isOnline(null, now)` is `false`), yet the firmware-update enqueue succeeds
and creates a `queued` job instead of failing with `AgentOffline` — the
handler has no online check (its error taxonomy has no such kind). -/
theorem claim_C2_counterexample :
    (enqueueFirmwareUpdate exSt1 "A" (some "D1") (some "FW9") "J1" 5).2
      = .ok "J1"
    ∧ (JsMap.find? exSt1.agents "A").map (fun a => (a.online, a.lastSeenAt))
      = some (false, none)
    ∧ isOnlineSpec none 5 = false
    ∧ (JsMap.find?
        (enqueueFirmwareUpdate exSt1 "A" (some "D1") (some "FW9") "J1" 5).1.jobs
        "J1").map (fun j => j.status) = some "queued" := by
  decide

/-- C2 (amended): enqueue fails with `UnknownAgent` for unregistered agents
and with `MissingDeviceId` / `MissingArtifactId` for absent required fields,
exactly in that order; but it performs no online check at all: for every
registered agent with both fields present it succeeds and creates a `queued`
job appended to the agent's queue, regardless of the agent's (stored or
derived) online state. -/
theorem claim_C2_enqueue_never_checks_online :
    (∀ st aid dev art jid now, JsMap.contains st.agents aid = false →
        enqueueFirmwareUpdate st aid dev art jid now
          = (st, .error .unknownAgent))
    ∧ (∀ st aid dev art jid now, JsMap.contains st.agents aid = true →
        optFalsy dev = true →
        enqueueFirmwareUpdate st aid dev art jid now
          = (st, .error .missingDeviceId))
    ∧ (∀ st aid dev art jid now, JsMap.contains st.agents aid = true →
        optFalsy dev = false → optFalsy art = true →
        enqueueFirmwareUpdate st aid dev art jid now
          = (st, .error .missingArtifactId))
    ∧ (∀ st aid dev art jid now, JsMap.contains st.agents aid = true →
        optFalsy dev = false → optFalsy art = false →
        (enqueueFirmwareUpdate st aid dev art jid now).2 = .ok jid
        ∧ (JsMap.find? (enqueueFirmwareUpdate st aid dev art jid now).1.jobs
            jid).map (fun j => (j.status, j.progress, j.agentId))
          = some ("queued", 0, aid)
        ∧ JsMap.find?
            (enqueueFirmwareUpdate st aid dev art jid now).1.agentJobQueue aid
          = some ((JsMap.find? st.agentJobQueue aid).getD [] ++ [jid])) := by
  refine ⟨?_, ?_, ?_, ?_⟩
  · intro st aid dev art jid now h
    simp [enqueueFirmwareUpdate, h]
  · intro st aid dev art jid now h hdev
    simp [enqueueFirmwareUpdate, h, hdev]
  · intro st aid dev art jid now h hdev hart
    simp [enqueueFirmwareUpdate, h, hdev, hart]
  · intro st aid dev art jid now h hdev hart
    refine ⟨?_, ?_, ?_⟩ <;>
      simp [enqueueFirmwareUpdate, h, hdev, hart, JsMap.find?_set_self,
            ensureQueue_snd]

/-- Witness for the amended C2 at a concrete input. -/
theorem claim_C2_enqueue_never_checks_online_witness :
    (enqueueFirmwareUpdate exSt1 "A" (some "D2") (some "FW1") "J9" 6).2
      = .ok "J9"
    ∧ (JsMap.find?
        (enqueueFirmwareUpdate exSt1 "A" (some "D2") (some "FW1") "J9" 6).1.jobs
        "J9").map (fun j => (j.status, j.progress, j.agentId))
      = some ("queued", 0, "A")
    ∧ JsMap.find?
        (enqueueFirmwareUpdate exSt1 "A" (some "D2") (some "FW1") "J9" 6).1.agentJobQueue
        "A"
      = some ((JsMap.find? exSt1.agentJobQueue "A").getD [] ++ ["J9"]) :=
  claim_C2_enqueue_never_checks_online.2.2.2 exSt1 "A" (some "D2") (some "FW1")
    "J9" 6 (by decide) (by decide) (by decide)

/-! ## C4: the startedAt / finishedAt latches -/

/-- C4: on a successful progress report the ledger record becomes
`applyReport` of the old one; `applyReport` never clears or overwrites a set
`startedAt` / `finishedAt`; when unset, `startedAt` is set to the report time
exactly when the resulting status is `"running"` (and `finishedAt` exactly
when it is `"succeeded"` or `"failed"`); and two successive reports both
setting status `"running"` leave a single, unchanged `startedAt`. -/
theorem claim_C4_timestamp_latch :
    (∀ st jobId j aid s p m now, JsMap.find? st.jobs jobId = some j →
        optFalsy aid = true ∨ aid.getD "" = j.agentId →
        JsMap.find? ((reportProgress st jobId aid s p m now).1).jobs jobId
          = some (applyReport j s p m now))
    ∧ (∀ j s p m now t, j.startedAt = some t →
        (applyReport j s p m now).startedAt = some t)
    ∧ (∀ j s p m now t, j.finishedAt = some t →
        (applyReport j s p m now).finishedAt = some t)
    ∧ (∀ j s p m now, j.startedAt = none →
        (applyReport j s p m now).startedAt
          = (if (applyReport j s p m now).status == "running"
             then some now else none))
    ∧ (∀ j s p m now, j.finishedAt = none →
        (applyReport j s p m now).finishedAt
          = (if (applyReport j s p m now).status == "succeeded"
                || (applyReport j s p m now).status == "failed"
             then some now else none))
    ∧ (∀ j p m p' m' now now', j.startedAt = none →
        (applyReport (applyReport j (some "running") p m now)
          (some "running") p' m' now').startedAt = some now) := by
  refine ⟨?_, ?_, ?_, ?_, ?_, ?_⟩
  · intro st jobId j aid s p m now hfind hok
    rw [reportProgress_ok st jobId j aid s p m now hfind hok]
    simp [JsMap.find?_set_self]
  · intro j s p m now t h
    simp [applyReport_startedAt, h]
  · intro j s p m now t h
    simp [applyReport_finishedAt, h]
  · intro j s p m now h
    rw [applyReport_startedAt, applyReport_status]
    simp [h]
  · intro j s p m now h
    rw [applyReport_finishedAt, applyReport_status]
    simp [h]
  · intro j p m p' m' now now' h
    rw [applyReport_startedAt, applyReport_startedAt, applyReport_status]
    simp [statusAfter, h]

/-- Witness for C4: a job reported `running` twice keeps the first
`startedAt`. -/
theorem claim_C4_timestamp_latch_witness :
    (applyReport (applyReport exJob (some "running") none none 10)
      (some "running") none none 20).startedAt = some 10 :=
  claim_C4_timestamp_latch.2.2.2.2.2 exJob none none none none 10 20 rfl

/-! ## C7: the progress clamp -/

/-- C7: a progress report supplying a numeric progress value stores that value
clamped to `[0, 100]`; in particular 150 is stored as 100 and -10 as 0. -/
theorem claim_C7_progress_clamped :
    (∀ st jobId j aid s m now (p : Int), JsMap.find? st.jobs jobId = some j →
        optFalsy aid = true ∨ aid.getD "" = j.agentId →
        (JsMap.find? ((reportProgress st jobId aid s (some p) m now).1).jobs
          jobId).map (fun r => r.progress) = some (max 0 (min 100 p)))
    ∧ (∀ j s m now, (applyReport j s (some 150) m now).progress = 100)
    ∧ (∀ j s m now, (applyReport j s (some (-10)) m now).progress = 0) := by
  refine ⟨?_, ?_, ?_⟩
  · intro st jobId j aid s m now p hfind hok
    rw [reportProgress_ok st jobId j aid s (some p) m now hfind hok]
    simp [JsMap.find?_set_self, applyReport_progress_some]
  · intro j s m now
    rw [applyReport_progress_some]
    decide
  · intro j s m now
    rw [applyReport_progress_some]
    decide

/-- Witness for C7: reporting progress 150 on the concrete job stores 100. -/
theorem claim_C7_progress_clamped_witness :
    (JsMap.find? ((reportProgress exStJ "J1" (some "A") none (some 150) none
      9).1).jobs "J1").map (fun r => r.progress) = some (max 0 (min 100 150)) :=
  claim_C7_progress_clamped.1 exStJ "J1" exJob (some "A") none none 9 150
    (by decide) (by decide)

/-! ## Lemmas about pull-next -/

theorem JsMap.set_self_of_find? {α : Type} (m : JsMap α) (k : String) (v : α)
    (h : JsMap.find? m k = some v) : JsMap.set m k v = m := by
  induction m with
  | nil => simp [JsMap.find?] at h
  | cons p rest ih =>
    obtain ⟨k₀, v₀⟩ := p
    by_cases h₀ : k₀ = k
    · subst h₀
      simp [JsMap.find?] at h
      simp [JsMap.set, h]
    · simp [JsMap.find?, h₀] at h
      simp [JsMap.set, h₀, ih h]

theorem length_filterMap_of_isSome {α β : Type} (f : α → Option β) (l : List α)
    (h : ∀ a ∈ l, (f a).isSome = true) : (l.filterMap f).length = l.length := by
  induction l with
  | nil => simp
  | cons x xs ih =>
    obtain ⟨y, hy⟩ := Option.isSome_iff_exists.mp (h x (by simp))
    simp [List.filterMap_cons, hy, ih (fun a ha => h a (by simp [ha]))]

/-- Pull-next on a registered agent whose queue is `q`: the returned jobs are
the ledger records of the first three queued ids (in order) and the queue
shrinks to `q.drop 3`; the jobs ledger and agent store are untouched. -/
theorem pullNext_run (st : ServerState) (aid : String) (q : List String)
    (now : Nat) (hne : aid ≠ "")
    (hreg : JsMap.contains st.agents aid = true)
    (hq : JsMap.find? st.agentJobQueue aid = some q) :
    pullNext st (some aid) now
      = ({ st with agentJobQueue := JsMap.set st.agentJobQueue aid (q.drop 3) },
         .ok (((q.take 3).filterMap (JsMap.find? st.jobs)).map jobDescriptor)) := by
  have hfalsy : optFalsy (some aid) = false := by simp [optFalsy, hne]
  rw [pullNext]
  rw [hfalsy]
  simp only [Bool.false_eq_true, if_false, Option.getD_some, hreg, if_true,
             ensureQueue, hq]
  cases hqe : q.isEmpty
  · simp only [hqe, Bool.false_eq_true, if_false]
  · have hnil : q = [] := by
      cases q with
      | nil => rfl
      | cons a l => simp [List.isEmpty] at hqe
    subst hnil
    simp [JsMap.set_self_of_find? _ _ _ hq]

/-- Pull-next fails (returning the state unchanged) when the agent identifier
is falsy or unregistered. -/
theorem pullNext_err (st : ServerState) (aid : Option String) (now : Nat)
    (h : optFalsy aid = true ∨ JsMap.contains st.agents (aid.getD "") = false) :
    pullNext st aid now = (st, .error .unknownAgent) := by
  rw [pullNext]
  rcases h with h | h
  · rw [h]; simp
  · cases hf : optFalsy aid
    · simp only [hf, Bool.false_eq_true, if_false, h]
    · simp

/-! ## C10: pull-next error behavior and the empty queue -/

/-- C10: pull-next fails exactly when the agent identifier is falsy or
unregistered, and then with `UnknownAgent` and no state change; for a
registered agent with an absent queue it returns the empty job list and only
materializes an empty queue entry; with a present-but-empty queue it returns
the empty job list and changes nothing at all. -/
theorem claim_C10_pull_error_iff :
    (∀ st aid now,
        ((∃ e, (pullNext st aid now).2 = .error e)
          ↔ (optFalsy aid = true
             ∨ JsMap.contains st.agents (aid.getD "") = false)))
    ∧ (∀ st aid now,
        optFalsy aid = true
          ∨ JsMap.contains st.agents (aid.getD "") = false →
        pullNext st aid now = (st, .error .unknownAgent))
    ∧ (∀ st (aid : String) now, aid ≠ "" →
        JsMap.contains st.agents aid = true →
        JsMap.find? st.agentJobQueue aid = none →
        pullNext st (some aid) now
          = ({ st with agentJobQueue := JsMap.set st.agentJobQueue aid [] },
             .ok []))
    ∧ (∀ st (aid : String) now, aid ≠ "" →
        JsMap.contains st.agents aid = true →
        JsMap.find? st.agentJobQueue aid = some [] →
        pullNext st (some aid) now = (st, .ok [])) := by
  refine ⟨?_, ?_, ?_, ?_⟩
  · intro st aid now
    constructor
    · intro ⟨e, he⟩
      by_contra hcon
      push_neg at hcon
      obtain ⟨h1, h2⟩ := hcon
      have h1' : optFalsy aid = false := by
        cases h : optFalsy aid
        · rfl
        · exact absurd h h1
      have h2' : JsMap.contains st.agents (aid.getD "") = true := by
        cases h : JsMap.contains st.agents (aid.getD "")
        · exact absurd h h2
        · rfl
      rw [pullNext, h1'] at he
      simp only [Bool.false_eq_true, if_false, h2', if_true] at he
      rcases hq : (ensureQueue st.agentJobQueue (aid.getD "")).2.isEmpty with _ | _ <;>
        simp [hq] at he
    · intro h
      exact ⟨.unknownAgent, by rw [pullNext_err st aid now h]⟩
  · intro st aid now h
    exact pullNext_err st aid now h
  · intro st aid now hne hreg hq
    have hfalsy : optFalsy (some aid) = false := by simp [optFalsy, hne]
    rw [pullNext, hfalsy]
    simp [hreg, ensureQueue, hq]
  · intro st aid now hne hreg hq
    rw [pullNext_run st aid [] now hne hreg hq]
    simp [JsMap.set_self_of_find? _ _ _ hq]

/-- Witness for C10: a registered agent with no queue entry pulls the empty
list and only gains an empty queue entry. -/
theorem claim_C10_pull_error_iff_witness :
    pullNext exSt1 (some "A") 3
      = ({ exSt1 with
            agentJobQueue := JsMap.set exSt1.agentJobQueue "A" [] }, .ok []) :=
  claim_C10_pull_error_iff.2.2.1 exSt1 "A" 3 (by decide) (by decide) (by decide)

/-! ## C5: destructive FIFO pull of up to three jobs -/

/-- C5: pull-next on a registered agent with queue `q` (all queued ids present
in the ledger) returns the ledger records of the first `min 3 |q|` queued ids
in enqueue order, destructively leaves exactly `q.drop 3` queued, and touches
no ledger record; on a queue of five jobs the first pull returns exactly 3 and
leaves 2, and a second pull returns the remaining 2 and leaves the queue
empty. -/
theorem claim_C5_pull_three_fifo :
    ∀ st (aid : String) q now now', aid ≠ "" →
      JsMap.contains st.agents aid = true →
      JsMap.find? st.agentJobQueue aid = some q →
      (∀ jid ∈ q, (JsMap.find? st.jobs jid).isSome = true) →
      (pullNext st (some aid) now).2
          = .ok (((q.take 3).filterMap (JsMap.find? st.jobs)).map jobDescriptor)
      ∧ ((q.take 3).filterMap (JsMap.find? st.jobs)).length = min 3 q.length
      ∧ JsMap.find? (pullNext st (some aid) now).1.agentJobQueue aid
          = some (q.drop 3)
      ∧ (pullNext st (some aid) now).1.jobs = st.jobs
      ∧ (q.length = 5 →
          ((q.take 3).filterMap (JsMap.find? st.jobs)).length = 3
          ∧ (q.drop 3).length = 2
          ∧ (pullNext (pullNext st (some aid) now).1 (some aid) now').2
              = .ok (((q.drop 3).filterMap (JsMap.find? st.jobs)).map
                  jobDescriptor)
          ∧ ((q.drop 3).filterMap (JsMap.find? st.jobs)).length = 2
          ∧ JsMap.find?
              (pullNext (pullNext st (some aid) now').1 (some aid)
                now').1.agentJobQueue aid = some []) := by
  intro st aid q now now' hne hreg hq hjobs
  have hrun := pullNext_run st aid q now hne hreg hq
  have htake : ∀ jid ∈ q.take 3, (JsMap.find? st.jobs jid).isSome = true :=
    fun jid hjid => hjobs jid (List.take_subset 3 q hjid)
  have hlen : ((q.take 3).filterMap (JsMap.find? st.jobs)).length
      = min 3 q.length := by
    rw [length_filterMap_of_isSome _ _ htake, List.length_take]
  refine ⟨by rw [hrun], hlen, by rw [hrun]; exact JsMap.find?_set_self _ _ _,
          by rw [hrun], ?_⟩
  intro h5
  have hrun' := pullNext_run st aid q now' hne hreg hq
  have hst1q : JsMap.find?
      ((pullNext st (some aid) now).1).agentJobQueue aid = some (q.drop 3) := by
    rw [hrun]; exact JsMap.find?_set_self _ _ _
  have hreg1 : JsMap.contains ((pullNext st (some aid) now).1).agents aid = true := by
    rw [hrun]; exact hreg
  have hrun2 := pullNext_run (pullNext st (some aid) now).1 aid (q.drop 3) now'
    hne hreg1 hst1q
  have hdroplen : (q.drop 3).length = 2 := by
    rw [List.length_drop, h5]
  have hdroptake : (q.drop 3).take 3 = q.drop 3 :=
    List.take_of_length_le (by rw [hdroplen]; omega)
  have hdropall : ∀ jid ∈ q.drop 3, (JsMap.find? st.jobs jid).isSome = true :=
    fun jid hjid => hjobs jid (List.drop_subset 3 q hjid)
  refine ⟨by rw [hlen, h5]; rfl, hdroplen, ?_, ?_, ?_⟩
  · rw [hrun2, hrun]
    dsimp only
    rw [hdroptake]
  · rw [length_filterMap_of_isSome _ _ hdropall, hdroplen]
  · have hst1q' : JsMap.find?
        ((pullNext st (some aid) now').1).agentJobQueue aid
          = some (q.drop 3) := by
      rw [hrun']; exact JsMap.find?_set_self _ _ _
    have hreg1' : JsMap.contains
        ((pullNext st (some aid) now').1).agents aid = true := by
      rw [hrun']; exact hreg
    have hrun2' := pullNext_run (pullNext st (some aid) now').1 aid (q.drop 3)
      now' hne hreg1' hst1q'
    rw [hrun2']
    dsimp only
    rw [JsMap.find?_set_self]
    have : (q.drop 3).drop 3 = [] :=
      List.drop_eq_nil_of_le (by rw [hdroplen]; omega)
    rw [this]

/-- Witness for C5: the concrete five-job queue of `exSt5`. -/
theorem claim_C5_pull_three_fifo_witness :
    (pullNext exSt5 (some "A") 7).2
        = .ok (((["J1", "J2", "J3", "J4", "J5"].take 3).filterMap
            (JsMap.find? exSt5.jobs)).map jobDescriptor)
    ∧ ((["J1", "J2", "J3", "J4", "J5"].take 3).filterMap
        (JsMap.find? exSt5.jobs)).length = min 3 (["J1", "J2", "J3", "J4", "J5"].length)
    ∧ JsMap.find? (pullNext exSt5 (some "A") 7).1.agentJobQueue "A"
        = some (["J1", "J2", "J3", "J4", "J5"].drop 3)
    ∧ (pullNext exSt5 (some "A") 7).1.jobs = exSt5.jobs
    ∧ ((["J1", "J2", "J3", "J4", "J5"].length = 5) →
        ((["J1", "J2", "J3", "J4", "J5"].take 3).filterMap
          (JsMap.find? exSt5.jobs)).length = 3
        ∧ ((["J1", "J2", "J3", "J4", "J5"].drop 3)).length = 2
        ∧ (pullNext (pullNext exSt5 (some "A") 7).1 (some "A") 8).2
            = .ok (((["J1", "J2", "J3", "J4", "J5"].drop 3).filterMap
                (JsMap.find? exSt5.jobs)).map jobDescriptor)
        ∧ ((["J1", "J2", "J3", "J4", "J5"].drop 3).filterMap
            (JsMap.find? exSt5.jobs)).length = 2
        ∧ JsMap.find?
            (pullNext (pullNext exSt5 (some "A") 8).1 (some "A")
              8).1.agentJobQueue "A" = some []) :=
  claim_C5_pull_three_fifo exSt5 "A" ["J1", "J2", "J3", "J4", "J5"] 7 8
    (by decide) (by decide) (by decide) (by decide)

/-! ## C6: unpair clears pairing state and drops the queue (spec-modelled) -/

/-- C6: unpairing an unknown agent fails with `UnknownAgent`; unpairing a
registered agent clears `paired`, `tenantId`, `siteId`, `pairedAt`,
`pairedBy`, empties that agent's job queue (pending jobs silently dropped),
and leaves the jobs ledger untouched, so every job is still retrievable by id
with its last-known record. -/
theorem claim_C6_unpair_clears_and_drops_queue :
    (∀ st aid, JsMap.find? st.agents aid = none →
        unpair st aid = (st, .error .unknownAgent))
    ∧ (∀ st aid a, JsMap.find? st.agents aid = some a →
        (unpair st aid).2 = .ok ()
        ∧ JsMap.find? (unpair st aid).1.agents aid
            = some { a with paired := false, tenantId := none, siteId := none,
                            pairedAt := none, pairedBy := none }
        ∧ JsMap.find? (unpair st aid).1.agentJobQueue aid = some []
        ∧ (unpair st aid).1.jobs = st.jobs
        ∧ (∀ jid, getJob (unpair st aid).1 jid = getJob st jid)) := by
  constructor
  · intro st aid h
    simp [unpair, h]
  · intro st aid a h
    refine ⟨by simp [unpair, h], ?_, ?_, ?_, ?_⟩
    · simp [unpair, h, JsMap.find?_set_self]
    · simp [unpair, h, JsMap.find?_set_self]
    · simp [unpair, h]
    · intro jid
      have hjobs : (unpair st aid).1.jobs = st.jobs := by simp [unpair, h]
      rw [getJob, getJob, hjobs]

/-- Witness for C6: unpairing the paired agent of `exStP` (three pending
queued jobs) empties its queue, clears its pairing fields and keeps the
ledger. -/
theorem claim_C6_unpair_clears_and_drops_queue_witness :
    (unpair exStP "A").2 = .ok ()
    ∧ JsMap.find? (unpair exStP "A").1.agents "A"
        = some { exAgentP with paired := false, tenantId := none,
                               siteId := none, pairedAt := none,
                               pairedBy := none }
    ∧ JsMap.find? (unpair exStP "A").1.agentJobQueue "A" = some []
    ∧ (unpair exStP "A").1.jobs = exStP.jobs
    ∧ (∀ jid, getJob (unpair exStP "A").1 jid = getJob exStP jid) :=
  claim_C6_unpair_clears_and_drops_queue.2 exStP "A" exAgentP (by decide)

/-! ## C3: pairing codes are single-use -/

theorem run_nil (st : ServerState) : run st [] = st := rfl

theorem run_cons (st : ServerState) (op : Op) (ops : List Op) :
    run st (op :: ops) = run (applyOp st op) ops := rfl

theorem heartbeat_sessions (st : ServerState) (aid av : Option String)
    (caps : Option (List String)) (now : Nat) :
    ((heartbeat st aid av caps now).1).pairingSessions = st.pairingSessions := by
  rw [heartbeat]
  split
  · rfl
  · split <;> rfl

theorem devicesReport_sessions (st : ServerState) (aid : Option String)
    (ds : Option (List DeviceIn)) (fresh : Nat → String) (now : Nat) :
    ((devicesReport st aid ds fresh now).1).pairingSessions
      = st.pairingSessions := by
  rw [devicesReport]
  split
  · rfl
  · split
    · rfl
    · split <;> rfl

theorem pullNext_sessions (st : ServerState) (aid : Option String) (now : Nat) :
    ((pullNext st aid now).1).pairingSessions = st.pairingSessions := by
  rw [pullNext]
  split
  · rfl
  · dsimp only
    split
    · split <;> rfl
    · rfl

theorem reportProgress_sessions (st : ServerState) (jid : String)
    (aid s : Option String) (p : Option Int) (m : Option String) (now : Nat) :
    ((reportProgress st jid aid s p m now).1).pairingSessions
      = st.pairingSessions := by
  rw [reportProgress]
  split
  · rfl
  · split <;> rfl

theorem enqueueFW_sessions (st : ServerState) (aid : String)
    (dev art : Option String) (jid : String) (now : Nat) :
    ((enqueueFirmwareUpdate st aid dev art jid now).1).pairingSessions
      = st.pairingSessions := by
  rw [enqueueFirmwareUpdate]
  split
  · rfl
  · split
    · rfl
    · split <;> rfl

theorem unpair_sessions (st : ServerState) (aid : String) :
    ((unpair st aid).1).pairingSessions = st.pairingSessions := by
  rw [unpair]
  split <;> rfl

theorem codeUsed_pairingStart (st : ServerState) (av hn : Option String)
    (aid c : String) (now : Nat) (code : String) (hne : c ≠ code)
    (h : codeUsed st code) :
    codeUsed ((pairingStart st av hn aid c now).1) code := by
  obtain ⟨s, hs, hu⟩ := h
  refine ⟨s, ?_, hu⟩
  show JsMap.find? (JsMap.set st.pairingSessions c _) code = some s
  rw [JsMap.find?_set_ne _ _ _ _ hne]
  exact hs

theorem codeUsed_pair (st : ServerState) (c tid uid dn sid : Option String)
    (now : Nat) (code : String) (h : codeUsed st code) :
    codeUsed ((pair st c tid uid dn sid now).1) code := by
  obtain ⟨s, hs, hu⟩ := h
  cases hf : optFalsy c with
  | true => exact ⟨s, by simp [pair, hf]; exact hs, hu⟩
  | false =>
    cases hsess : JsMap.find? st.pairingSessions (c.getD "") with
    | none => exact ⟨s, by simp [pair, hf, hsess]; exact hs, hu⟩
    | some session =>
      cases hused : session.usedAt.isSome with
      | true => exact ⟨s, by simp [pair, hf, hsess, hused]; exact hs, hu⟩
      | false =>
        by_cases hexp : session.expiresAt < now
        · exact ⟨s, by simp [pair, hf, hsess, hused, hexp]; exact hs, hu⟩
        · cases hag : JsMap.find? st.agents session.agentId with
          | none =>
            exact ⟨s, by simp [pair, hf, hsess, hused, hexp, hag]; exact hs, hu⟩
          | some agent =>
            by_cases hcc : c.getD "" = code
            · rw [hcc, hs] at hsess
              cases hsess
              rw [hu] at hused
              cases hused
            · refine ⟨s, ?_, hu⟩
              have : ((pair st c tid uid dn sid now).1).pairingSessions
                  = JsMap.set st.pairingSessions (c.getD "")
                      { session with usedAt := some now } := by
                simp [pair, hf, hsess, hused, hexp, hag]
              rw [this, JsMap.find?_set_ne _ _ _ _ hcc]
              exact hs

theorem codeUsed_applyOp (st : ServerState) (code : String) (op : Op)
    (h : codeUsed st code) (hno : ¬ reissuesCode code op) :
    codeUsed (applyOp st op) code := by
  cases op with
  | pairingStart av hn aid c now =>
    exact codeUsed_pairingStart st av hn aid c now code
      (fun he => hno (by simpa [reissuesCode] using he)) h
  | heartbeat aid av caps now =>
    obtain ⟨s, hs, hu⟩ := h
    exact ⟨s, by rw [applyOp, heartbeat_sessions]; exact hs, hu⟩
  | devicesReport aid ds fresh now =>
    obtain ⟨s, hs, hu⟩ := h
    exact ⟨s, by rw [applyOp, devicesReport_sessions]; exact hs, hu⟩
  | pullNext aid now =>
    obtain ⟨s, hs, hu⟩ := h
    exact ⟨s, by rw [applyOp, pullNext_sessions]; exact hs, hu⟩
  | reportProgress jid aid s' p m now =>
    obtain ⟨s, hs, hu⟩ := h
    exact ⟨s, by rw [applyOp, reportProgress_sessions]; exact hs, hu⟩
  | pair c tid uid dn sid now =>
    exact codeUsed_pair st c tid uid dn sid now code h
  | enqueue aid dev art jid now =>
    obtain ⟨s, hs, hu⟩ := h
    exact ⟨s, by rw [applyOp, enqueueFW_sessions]; exact hs, hu⟩
  | unpair aid =>
    obtain ⟨s, hs, hu⟩ := h
    exact ⟨s, by rw [applyOp, unpair_sessions]; exact hs, hu⟩

theorem codeUsed_run (st : ServerState) (code : String) (ops : List Op)
    (h : codeUsed st code) (hno : ∀ op ∈ ops, ¬ reissuesCode code op) :
    codeUsed (run st ops) code := by
  induction ops generalizing st with
  | nil => exact h
  | cons op rest ih =>
    rw [run_cons]
    exact ih (applyOp st op)
      (codeUsed_applyOp st code op h (hno op (by simp)))
      (fun o ho => hno o (by simp [ho]))

/-- A used code always claims to `CodeAlreadyUsed` (state unchanged). -/
theorem pair_already_used (st : ServerState) (code : String)
    (tid uid dn sid : Option String) (now : Nat) (hne : code ≠ "")
    (h : codeUsed st code) :
    pair st (some code) tid uid dn sid now = (st, .error .codeAlreadyUsed) := by
  obtain ⟨s, hs, hu⟩ := h
  have hf : optFalsy (some code) = false := by simp [optFalsy, hne]
  simp [pair, hf, hs, hu]

/-- A successful claim leaves the code marked used (and the supplied code was
truthy). -/
theorem pair_ok_used (st : ServerState) (c tid uid dn sid : Option String)
    (now : Nat) (a : String)
    (h : (pair st c tid uid dn sid now).2 = .ok a) :
    c.getD "" ≠ ""
    ∧ codeUsed ((pair st c tid uid dn sid now).1) (c.getD "") := by
  cases hf : optFalsy c with
  | true => rw [pair] at h; rw [hf] at h; simp at h
  | false =>
    have hne : c.getD "" ≠ "" := by
      cases c with
      | none => simp [optFalsy] at hf
      | some v => simpa [optFalsy] using hf
    refine ⟨hne, ?_⟩
    cases hsess : JsMap.find? st.pairingSessions (c.getD "") with
    | none => rw [pair] at h; rw [hf] at h; simp [hsess] at h
    | some session =>
      cases hused : session.usedAt.isSome with
      | true => rw [pair] at h; rw [hf] at h; simp [hsess, hused] at h
      | false =>
        by_cases hexp : session.expiresAt < now
        · rw [pair] at h; rw [hf] at h; simp [hsess, hused, hexp] at h
        · cases hag : JsMap.find? st.agents session.agentId with
          | none => rw [pair] at h; rw [hf] at h; simp [hsess, hused, hexp, hag] at h
          | some agent =>
            refine ⟨{ session with usedAt := some now }, ?_, by simp⟩
            have : ((pair st c tid uid dn sid now).1).pairingSessions
                = JsMap.set st.pairingSessions (c.getD "")
                    { session with usedAt := some now } := by
              simp [pair, hf, hsess, hused, hexp, hag]
            rw [this]
            exact JsMap.find?_set_self _ _ _

/-- C3: a claim on a never-issued (truthy) code fails `InvalidCode`; on a used
code it fails `CodeAlreadyUsed`; on an unused code past its expiry it fails
`CodeExpired`; and once a claim has succeeded, every later claim of that code
— whatever identifiers it supplies, after any interleaved requests that do
not re-issue the same code string — fails `CodeAlreadyUsed`, so at most one
claim per code ever succeeds. -/
theorem claim_C3_pairing_code_single_use :
    (∀ st (code : String) tid uid dn sid now, code ≠ "" →
        JsMap.find? st.pairingSessions code = none →
        pair st (some code) tid uid dn sid now = (st, .error .invalidCode))
    ∧ (∀ st (code : String) s tid uid dn sid now, code ≠ "" →
        JsMap.find? st.pairingSessions code = some s →
        s.usedAt.isSome = true →
        pair st (some code) tid uid dn sid now
          = (st, .error .codeAlreadyUsed))
    ∧ (∀ st (code : String) s tid uid dn sid now, code ≠ "" →
        JsMap.find? st.pairingSessions code = some s → s.usedAt = none →
        s.expiresAt < now →
        pair st (some code) tid uid dn sid now = (st, .error .codeExpired))
    ∧ (∀ st (code : String) tid uid dn sid now a ops tid' uid' dn' sid' now',
        (pair st (some code) tid uid dn sid now).2 = .ok a →
        (∀ op ∈ ops, ¬ reissuesCode code op) →
        (pair (run (pair st (some code) tid uid dn sid now).1 ops)
          (some code) tid' uid' dn' sid' now').2
          = .error .codeAlreadyUsed) := by
  refine ⟨?_, ?_, ?_, ?_⟩
  · intro st code tid uid dn sid now hne hsess
    have hf : optFalsy (some code) = false := by simp [optFalsy, hne]
    simp [pair, hf, hsess]
  · intro st code s tid uid dn sid now hne hsess hused
    exact pair_already_used st code tid uid dn sid now hne ⟨s, hsess, hused⟩
  · intro st code s tid uid dn sid now hne hsess hused hexp
    have hf : optFalsy (some code) = false := by simp [optFalsy, hne]
    simp [pair, hf, hsess, hused, hexp]
  · intro st code tid uid dn sid now a ops tid' uid' dn' sid' now' hok hno
    obtain ⟨hne, hused⟩ := pair_ok_used st (some code) tid uid dn sid now a hok
    have hne' : code ≠ "" := by simpa using hne
    have hrun := codeUsed_run _ code ops (by simpa using hused) hno
    rw [pair_already_used _ code tid' uid' dn' sid' now' hne' hrun]

/-- Witness for C3: claiming the concrete code twice; the second claim (with
different identifiers) fails `CodeAlreadyUsed`. -/
theorem claim_C3_pairing_code_single_use_witness :
    (pair (run (pair exSt1 (some "AAAA-BBBB") (some "acme") (some "bob") none
        none 100).1 [])
      (some "AAAA-BBBB") (some "evil") (some "eve") none none 200).2
      = .error .codeAlreadyUsed :=
  claim_C3_pairing_code_single_use.2.2.2 exSt1 "AAAA-BBBB" (some "acme")
    (some "bob") none none 100 "A" [] (some "evil") (some "eve") none none 200
    (by decide) (by simp)

/-! ## C9: queue/ledger coherence — frame lemmas -/

theorem heartbeat_jobs (st : ServerState) (aid av : Option String)
    (caps : Option (List String)) (now : Nat) :
    ((heartbeat st aid av caps now).1).jobs = st.jobs := by
  rw [heartbeat]
  split
  · rfl
  · split <;> rfl

theorem heartbeat_queue (st : ServerState) (aid av : Option String)
    (caps : Option (List String)) (now : Nat) :
    ((heartbeat st aid av caps now).1).agentJobQueue = st.agentJobQueue := by
  rw [heartbeat]
  split
  · rfl
  · split <;> rfl

theorem devicesReport_jobs (st : ServerState) (aid : Option String)
    (ds : Option (List DeviceIn)) (fresh : Nat → String) (now : Nat) :
    ((devicesReport st aid ds fresh now).1).jobs = st.jobs := by
  rw [devicesReport]
  split
  · rfl
  · split
    · rfl
    · split <;> rfl

theorem devicesReport_queue (st : ServerState) (aid : Option String)
    (ds : Option (List DeviceIn)) (fresh : Nat → String) (now : Nat) :
    ((devicesReport st aid ds fresh now).1).agentJobQueue
      = st.agentJobQueue := by
  rw [devicesReport]
  split
  · rfl
  · split
    · rfl
    · split <;> rfl

theorem pullNext_jobs (st : ServerState) (aid : Option String) (now : Nat) :
    ((pullNext st aid now).1).jobs = st.jobs := by
  rw [pullNext]
  split
  · rfl
  · dsimp only
    split
    · split <;> rfl
    · rfl

theorem reportProgress_queue (st : ServerState) (jid : String)
    (aid s : Option String) (p : Option Int) (m : Option String) (now : Nat) :
    ((reportProgress st jid aid s p m now).1).agentJobQueue
      = st.agentJobQueue := by
  rw [reportProgress]
  split
  · rfl
  · split <;> rfl

theorem pair_jobs (st : ServerState) (c tid uid dn sid : Option String)
    (now : Nat) : ((pair st c tid uid dn sid now).1).jobs = st.jobs := by
  rw [pair]
  split
  · rfl
  · dsimp only
    split
    · rfl
    · split
      · rfl
      · split
        · rfl
        · split <;> rfl

theorem pair_queue (st : ServerState) (c tid uid dn sid : Option String)
    (now : Nat) :
    ((pair st c tid uid dn sid now).1).agentJobQueue = st.agentJobQueue := by
  rw [pair]
  split
  · rfl
  · dsimp only
    split
    · rfl
    · split
      · rfl
      · split
        · rfl
        · split <;> rfl

theorem unpair_jobs (st : ServerState) (aid : String) :
    ((unpair st aid).1).jobs = st.jobs := by
  rw [unpair]
  split <;> rfl

theorem reportProgress_jobs_isSome (st : ServerState) (jid0 : String)
    (aid s : Option String) (p : Option Int) (m : Option String) (now : Nat)
    (k : String) (hk : (JsMap.find? st.jobs k).isSome = true) :
    (JsMap.find? ((reportProgress st jid0 aid s p m now).1).jobs k).isSome
      = true := by
  cases hfind : JsMap.find? st.jobs jid0 with
  | none => simpa [reportProgress, hfind] using hk
  | some j =>
    cases hg : (!optFalsy aid && !(j.agentId == aid.getD "")) with
    | true => simpa [reportProgress, hfind, hg] using hk
    | false =>
      have hres : ((reportProgress st jid0 aid s p m now).1)
          = { st with
              jobs := JsMap.set st.jobs jid0 (applyReport j s p m now) } := by
        simp [reportProgress, hfind, hg]
      rw [hres]
      by_cases hke : jid0 = k
      · subst hke
        show (JsMap.find? (JsMap.set st.jobs jid0 _) jid0).isSome = true
        rw [JsMap.find?_set_self]
        rfl
      · show (JsMap.find? (JsMap.set st.jobs jid0 _) k).isSome = true
        rw [JsMap.find?_set_ne _ _ _ _ hke]
        exact hk

theorem reportProgress_jobs_none (st : ServerState) (jid0 : String)
    (aid s : Option String) (p : Option Int) (m : Option String) (now : Nat)
    (k : String) (hk : JsMap.find? st.jobs k = none) :
    JsMap.find? ((reportProgress st jid0 aid s p m now).1).jobs k = none := by
  cases hfind : JsMap.find? st.jobs jid0 with
  | none => simpa [reportProgress, hfind] using hk
  | some j =>
    cases hg : (!optFalsy aid && !(j.agentId == aid.getD "")) with
    | true => simpa [reportProgress, hfind, hg] using hk
    | false =>
      have hres : ((reportProgress st jid0 aid s p m now).1)
          = { st with
              jobs := JsMap.set st.jobs jid0 (applyReport j s p m now) } := by
        simp [reportProgress, hfind, hg]
      rw [hres]
      have hke : jid0 ≠ k := by
        intro he
        rw [he, hk] at hfind
        cases hfind
      show JsMap.find? (JsMap.set st.jobs jid0 _) k = none
      rw [JsMap.find?_set_ne _ _ _ _ hke]
      exact hk

theorem enqueueFW_err_state (st : ServerState) (aid : String)
    (dev art : Option String) (jid0 : String) (now : Nat)
    (h : JsMap.contains st.agents aid = false ∨ optFalsy dev = true
         ∨ optFalsy art = true) :
    (enqueueFirmwareUpdate st aid dev art jid0 now).1 = st := by
  rw [enqueueFirmwareUpdate]
  rcases h with h | h | h
  · simp [h]
  · cases hc : JsMap.contains st.agents aid <;> simp [h]
  · cases hc : JsMap.contains st.agents aid <;>
      cases hd : optFalsy dev <;> simp [h]

theorem enqueueFW_jobs_isSome (st : ServerState) (aid : String)
    (dev art : Option String) (jid0 : String) (now : Nat) (k : String)
    (hk : (JsMap.find? st.jobs k).isSome = true) :
    (JsMap.find? ((enqueueFirmwareUpdate st aid dev art jid0 now).1).jobs
      k).isSome = true := by
  rw [enqueueFirmwareUpdate]
  split
  · exact hk
  · split
    · exact hk
    · split
      · exact hk
      · by_cases hke : jid0 = k
        · subst hke
          show (JsMap.find? (JsMap.set st.jobs jid0 _) jid0).isSome = true
          rw [JsMap.find?_set_self]
          rfl
        · show (JsMap.find? (JsMap.set st.jobs jid0 _) k).isSome = true
          rw [JsMap.find?_set_ne _ _ _ _ hke]
          exact hk

theorem enqueueFW_jobs_ne (st : ServerState) (aid : String)
    (dev art : Option String) (jid0 : String) (now : Nat) (k : String)
    (hke : jid0 ≠ k) :
    JsMap.find? ((enqueueFirmwareUpdate st aid dev art jid0 now).1).jobs k
      = JsMap.find? st.jobs k := by
  rw [enqueueFirmwareUpdate]
  split
  · rfl
  · split
    · rfl
    · split
      · rfl
      · show JsMap.find? (JsMap.set st.jobs jid0 _) k = _
        rw [JsMap.find?_set_ne _ _ _ _ hke]

theorem enqueueFW_jobs_self (st : ServerState) (aid : String)
    (dev art : Option String) (jid0 : String) (now : Nat)
    (hc : JsMap.contains st.agents aid = true) (hd : optFalsy dev = false)
    (ha : optFalsy art = false) :
    JsMap.find? ((enqueueFirmwareUpdate st aid dev art jid0 now).1).jobs jid0
      = some { jobId := jid0, type := "firmware-update", agentId := aid,
               deviceId := dev.getD "",
               payload := { artifactId := art.getD "" },
               status := "queued", progress := 0, message := "queued",
               createdAt := now, updatedAt := now, startedAt := none,
               finishedAt := none } := by
  simp [enqueueFirmwareUpdate, hc, hd, ha, JsMap.find?_set_self]

theorem enqueueFW_queue_self (st : ServerState) (aid : String)
    (dev art : Option String) (jid0 : String) (now : Nat)
    (hc : JsMap.contains st.agents aid = true) (hd : optFalsy dev = false)
    (ha : optFalsy art = false) :
    JsMap.find?
      ((enqueueFirmwareUpdate st aid dev art jid0 now).1).agentJobQueue aid
      = some ((JsMap.find? st.agentJobQueue aid).getD [] ++ [jid0]) := by
  simp [enqueueFirmwareUpdate, hc, hd, ha, JsMap.find?_set_self, ensureQueue_snd]

theorem enqueueFW_queue_ne (st : ServerState) (aid : String)
    (dev art : Option String) (jid0 : String) (now : Nat) (k : String)
    (hk : aid ≠ k) :
    JsMap.find?
      ((enqueueFirmwareUpdate st aid dev art jid0 now).1).agentJobQueue k
      = JsMap.find? st.agentJobQueue k := by
  rw [enqueueFirmwareUpdate]
  split
  · rfl
  · split
    · rfl
    · split
      · rfl
      · show JsMap.find? (JsMap.set (ensureQueue st.agentJobQueue aid).1 aid _) k = _
        rw [JsMap.find?_set_ne _ _ _ _ hk, ensureQueue_find?_ne _ _ _ hk]

/-! ## C9: queue/ledger coherence — preservation -/

theorem QLInv_congr (st st' : ServerState)
    (hq : st'.agentJobQueue = st.agentJobQueue) (hj : st'.jobs = st.jobs)
    (h : QLInv st) : QLInv st' := by
  intro aid q hfind jid hjid
  rw [hq] at hfind
  obtain ⟨j, hj', ha⟩ := h aid q hfind jid hjid
  exact ⟨j, by rw [hj]; exact hj', ha⟩

theorem QLInv_pullNext (st : ServerState) (aid : Option String) (now : Nat)
    (h : QLInv st) : QLInv ((pullNext st aid now).1) := by
  cases hf : optFalsy aid with
  | true =>
    exact QLInv_congr st _ (by simp [pullNext, hf]) (by simp [pullNext, hf]) h
  | false =>
    cases hc : JsMap.contains st.agents (aid.getD "") with
    | false =>
      exact QLInv_congr st _ (by simp [pullNext, hf, hc])
        (by simp [pullNext, hf, hc]) h
    | true =>
      cases hq : JsMap.find? st.agentJobQueue (aid.getD "") with
      | none =>
        have hres : ((pullNext st aid now).1)
            = { st with agentJobQueue :=
                  JsMap.set st.agentJobQueue (aid.getD "") [] } := by
          simp [pullNext, hf, hc, ensureQueue, hq]
        rw [hres]
        intro aid' q' hfind' jid hjid
        by_cases hk : aid.getD "" = aid'
        · subst hk
          rw [JsMap.find?_set_self] at hfind'
          cases hfind'
          cases hjid
        · rw [JsMap.find?_set_ne _ _ _ _ hk] at hfind'
          exact h aid' q' hfind' jid hjid
      | some q =>
        cases q with
        | nil =>
          have hres : ((pullNext st aid now).1) = st := by
            simp [pullNext, hf, hc, ensureQueue, hq]
          rw [hres]
          exact h
        | cons x xs =>
          have hres : ((pullNext st aid now).1)
              = { st with agentJobQueue := (JsMap.set st.agentJobQueue (aid.getD "") ((x :: xs).drop 3)) } := by
            simp [pullNext, hf, hc, ensureQueue, hq]
          rw [hres]
          intro aid' q' hfind' jid hjid
          by_cases hk : aid.getD "" = aid'
          · subst hk
            rw [JsMap.find?_set_self] at hfind'
            cases hfind'
            exact h _ _ hq jid (List.drop_subset 3 _ hjid)
          · rw [JsMap.find?_set_ne _ _ _ _ hk] at hfind'
            exact h aid' q' hfind' jid hjid

theorem QLInv_reportProgress (st : ServerState) (jid0 : String)
    (aid s : Option String) (p : Option Int) (m : Option String) (now : Nat)
    (h : QLInv st) : QLInv ((reportProgress st jid0 aid s p m now).1) := by
  cases hfind : JsMap.find? st.jobs jid0 with
  | none =>
    exact QLInv_congr st _ (by simp [reportProgress, hfind])
      (by simp [reportProgress, hfind]) h
  | some j =>
    cases hg : (!optFalsy aid && !(j.agentId == aid.getD "")) with
    | true =>
      exact QLInv_congr st _ (by simp [reportProgress, hfind, hg])
        (by simp [reportProgress, hfind, hg]) h
    | false =>
      have hres : ((reportProgress st jid0 aid s p m now).1)
          = { st with
              jobs := JsMap.set st.jobs jid0 (applyReport j s p m now) } := by
        simp [reportProgress, hfind, hg]
      rw [hres]
      intro aid' q' hfind' jid hjid
      obtain ⟨j', hj', ha⟩ := h aid' q' hfind' jid hjid
      by_cases hk : jid0 = jid
      · subst hk
        rw [hj'] at hfind
        injection hfind with he
        subst he
        refine ⟨applyReport j' s p m now, JsMap.find?_set_self _ _ _, ?_⟩
        rw [applyReport_agentId]
        exact ha
      · exact ⟨j', by rw [JsMap.find?_set_ne _ _ _ _ hk]; exact hj', ha⟩

theorem QLInv_enqueue (st : ServerState) (aid : String)
    (dev art : Option String) (jid0 : String) (now : Nat) (h : QLInv st)
    (hfresh : JsMap.find? st.jobs jid0 = none) :
    QLInv ((enqueueFirmwareUpdate st aid dev art jid0 now).1) := by
  cases hc : JsMap.contains st.agents aid with
  | false =>
    rw [enqueueFW_err_state st aid dev art jid0 now (Or.inl hc)]
    exact h
  | true =>
    cases hd : optFalsy dev with
    | true =>
      rw [enqueueFW_err_state st aid dev art jid0 now (Or.inr (Or.inl hd))]
      exact h
    | false =>
      cases ha : optFalsy art with
      | true =>
        rw [enqueueFW_err_state st aid dev art jid0 now (Or.inr (Or.inr ha))]
        exact h
      | false =>
        intro aid' q' hfind' jid hjid
        by_cases hk : aid = aid'
        · subst hk
          rw [enqueueFW_queue_self st aid dev art jid0 now hc hd ha] at hfind'
          injection hfind' with he
          subst he
          rcases List.mem_append.mp hjid with hmem | hmem
          · cases hq0 : JsMap.find? st.agentJobQueue aid with
            | none => rw [hq0] at hmem; cases hmem
            | some q0 =>
              rw [hq0] at hmem
              obtain ⟨j', hj', ha'⟩ := h aid q0 hq0 jid hmem
              have hne : jid0 ≠ jid := by
                intro he
                rw [he, hj'] at hfresh
                cases hfresh
              refine ⟨j', ?_, ha'⟩
              rw [enqueueFW_jobs_ne st aid dev art jid0 now jid hne]
              exact hj'
          · have hje : jid = jid0 := by simpa using hmem
            subst hje
            exact ⟨_, enqueueFW_jobs_self st aid dev art jid now hc hd ha, rfl⟩
        · rw [enqueueFW_queue_ne st aid dev art jid0 now aid' hk] at hfind'
          obtain ⟨j', hj', ha'⟩ := h aid' q' hfind' jid hjid
          have hne : jid0 ≠ jid := by
            intro he
            rw [he, hj'] at hfresh
            cases hfresh
          refine ⟨j', ?_, ha'⟩
          rw [enqueueFW_jobs_ne st aid dev art jid0 now jid hne]
          exact hj'

theorem QLInv_unpair (st : ServerState) (aid : String) (h : QLInv st) :
    QLInv ((unpair st aid).1) := by
  cases hfind : JsMap.find? st.agents aid with
  | none =>
    exact QLInv_congr st _ (by simp [unpair, hfind]) (by simp [unpair, hfind]) h
  | some a =>
    have hq : ((unpair st aid).1).agentJobQueue
        = JsMap.set st.agentJobQueue aid [] := by
      simp [unpair, hfind]
    have hj : ((unpair st aid).1).jobs = st.jobs := unpair_jobs st aid
    intro aid' q' hfind' jid hjid
    rw [hq] at hfind'
    by_cases hk : aid = aid'
    · subst hk
      rw [JsMap.find?_set_self] at hfind'
      cases hfind'
      cases hjid
    · rw [JsMap.find?_set_ne _ _ _ _ hk] at hfind'
      obtain ⟨j', hj', ha'⟩ := h aid' q' hfind' jid hjid
      exact ⟨j', by rw [hj]; exact hj', ha'⟩

theorem QLInv_applyOp (st : ServerState) (op : Op) (h : QLInv st)
    (hfresh : ∀ j, opEnqueueId op = some j → JsMap.find? st.jobs j = none) :
    QLInv (applyOp st op) := by
  cases op with
  | pairingStart av hn aid c now => exact QLInv_congr st _ rfl rfl h
  | heartbeat aid av caps now =>
    exact QLInv_congr st _ (heartbeat_queue st aid av caps now)
      (heartbeat_jobs st aid av caps now) h
  | devicesReport aid ds fresh now =>
    exact QLInv_congr st _ (devicesReport_queue st aid ds fresh now)
      (devicesReport_jobs st aid ds fresh now) h
  | pullNext aid now => exact QLInv_pullNext st aid now h
  | reportProgress jid aid s p m now =>
    exact QLInv_reportProgress st jid aid s p m now h
  | pair c tid uid dn sid now =>
    exact QLInv_congr st _ (pair_queue st c tid uid dn sid now)
      (pair_jobs st c tid uid dn sid now) h
  | enqueue aid dev art jid now =>
    exact QLInv_enqueue st aid dev art jid now h
      (hfresh jid (by simp [opEnqueueId]))
  | unpair aid => exact QLInv_unpair st aid h

theorem jobs_applyOp_isSome (st : ServerState) (op : Op) (k : String)
    (hk : (JsMap.find? st.jobs k).isSome = true) :
    (JsMap.find? (applyOp st op).jobs k).isSome = true := by
  cases op with
  | pairingStart av hn aid c now => exact hk
  | heartbeat aid av caps now =>
    show (JsMap.find? ((heartbeat st aid av caps now).1).jobs k).isSome = true
    rw [heartbeat_jobs]
    exact hk
  | devicesReport aid ds fresh now =>
    show (JsMap.find?
      ((devicesReport st aid ds fresh now).1).jobs k).isSome = true
    rw [devicesReport_jobs]
    exact hk
  | pullNext aid now =>
    show (JsMap.find? ((pullNext st aid now).1).jobs k).isSome = true
    rw [pullNext_jobs]
    exact hk
  | reportProgress jid aid s p m now =>
    exact reportProgress_jobs_isSome st jid aid s p m now k hk
  | pair c tid uid dn sid now =>
    show (JsMap.find? ((pair st c tid uid dn sid now).1).jobs k).isSome = true
    rw [pair_jobs]
    exact hk
  | enqueue aid dev art jid now =>
    exact enqueueFW_jobs_isSome st aid dev art jid now k hk
  | unpair aid =>
    show (JsMap.find? ((unpair st aid).1).jobs k).isSome = true
    rw [unpair_jobs]
    exact hk

theorem jobs_applyOp_none (st : ServerState) (op : Op) (k : String)
    (hk : JsMap.find? st.jobs k = none) (hne : opEnqueueId op ≠ some k) :
    JsMap.find? (applyOp st op).jobs k = none := by
  cases op with
  | pairingStart av hn aid c now => exact hk
  | heartbeat aid av caps now =>
    show JsMap.find? ((heartbeat st aid av caps now).1).jobs k = none
    rw [heartbeat_jobs]
    exact hk
  | devicesReport aid ds fresh now =>
    show JsMap.find? ((devicesReport st aid ds fresh now).1).jobs k = none
    rw [devicesReport_jobs]
    exact hk
  | pullNext aid now =>
    show JsMap.find? ((pullNext st aid now).1).jobs k = none
    rw [pullNext_jobs]
    exact hk
  | reportProgress jid aid s p m now =>
    exact reportProgress_jobs_none st jid aid s p m now k hk
  | pair c tid uid dn sid now =>
    show JsMap.find? ((pair st c tid uid dn sid now).1).jobs k = none
    rw [pair_jobs]
    exact hk
  | enqueue aid dev art jid now =>
    have hj : jid ≠ k := by
      intro he
      exact hne (by simp [opEnqueueId, he])
    show JsMap.find? ((enqueueFirmwareUpdate st aid dev art jid now).1).jobs k
      = none
    rw [enqueueFW_jobs_ne st aid dev art jid now k hj]
    exact hk
  | unpair aid =>
    show JsMap.find? ((unpair st aid).1).jobs k = none
    rw [unpair_jobs]
    exact hk

theorem jobs_run_isSome (st : ServerState) (ops : List Op) (k : String)
    (hk : (JsMap.find? st.jobs k).isSome = true) :
    (JsMap.find? (run st ops).jobs k).isSome = true := by
  induction ops generalizing st with
  | nil => exact hk
  | cons op rest ih =>
    rw [run_cons]
    exact ih (applyOp st op) (jobs_applyOp_isSome st op k hk)

/-- C9: along any request trace whose enqueue requests use pairwise-distinct,
previously unused job ids (as `crypto.randomUUID()` guarantees), the
queue/ledger coherence invariant `QLInv` is preserved; ledger records are
never deleted by any request; and in a coherent state the ledger lookup done
by a pull can never fail — the pull returns exactly `min 3 |queue|` job
descriptors. -/
theorem claim_C9_queue_ledger_coherence :
    (∀ st ops, QLInv st → (enqueueIds ops).Nodup →
        (∀ j ∈ enqueueIds ops, JsMap.find? st.jobs j = none) →
        QLInv (run st ops))
    ∧ (∀ st ops k, (JsMap.find? st.jobs k).isSome = true →
        (JsMap.find? (run st ops).jobs k).isSome = true)
    ∧ (∀ st (aid : String) q now, QLInv st → aid ≠ "" →
        JsMap.contains st.agents aid = true →
        JsMap.find? st.agentJobQueue aid = some q →
        ∃ l, (pullNext st (some aid) now).2 = .ok l
             ∧ l.length = min 3 q.length) := by
  refine ⟨?_, ?_, ?_⟩
  · intro st ops h hnodup hfresh
    induction ops generalizing st with
    | nil => exact h
    | cons op rest ih =>
      rw [run_cons]
      have hfreshop : ∀ j, opEnqueueId op = some j →
          JsMap.find? st.jobs j = none := by
        intro j hj
        exact hfresh j (by simp [enqueueIds, List.filterMap_cons, hj])
      have hstep := QLInv_applyOp st op h hfreshop
      cases hop : opEnqueueId op with
      | none =>
        have hids : enqueueIds (op :: rest) = enqueueIds rest := by
          simp [enqueueIds, List.filterMap_cons, hop]
        refine ih (applyOp st op) hstep (by rw [hids] at hnodup; exact hnodup)
          ?_
        intro j hj
        refine jobs_applyOp_none st op j
          (hfresh j (by rw [hids]; exact hj)) ?_
        rw [hop]
        intro hcon
        cases hcon
      | some i =>
        have hids : enqueueIds (op :: rest) = i :: enqueueIds rest := by
          simp [enqueueIds, List.filterMap_cons, hop]
        rw [hids] at hnodup hfresh
        obtain ⟨hnotmem, hnodup'⟩ := List.nodup_cons.mp hnodup
        refine ih (applyOp st op) hstep hnodup' ?_
        intro j hj
        refine jobs_applyOp_none st op j (hfresh j (by simp [hj])) ?_
        rw [hop]
        intro hcon
        injection hcon with he
        exact hnotmem (he ▸ hj)
  · intro st ops k hk
    exact jobs_run_isSome st ops k hk
  · intro st aid q now h hne hreg hq
    have htake : ∀ jid ∈ q.take 3, (JsMap.find? st.jobs jid).isSome = true := by
      intro jid hjid
      obtain ⟨j, hj, _⟩ := h aid q hq jid (List.take_subset 3 q hjid)
      rw [hj]
      rfl
    refine ⟨((q.take 3).filterMap (JsMap.find? st.jobs)).map jobDescriptor,
      by rw [pullNext_run st aid q now hne hreg hq], ?_⟩
    rw [List.length_map, length_filterMap_of_isSome _ _ htake,
        List.length_take]

/-- Witness for C9: the invariant holds after enqueueing one fresh job in the
concrete state. -/
theorem claim_C9_queue_ledger_coherence_witness :
    QLInv (run exSt1 [Op.enqueue "A" (some "D1") (some "F1") "W1" 1]) :=
  claim_C9_queue_ledger_coherence.1 exSt1
    [Op.enqueue "A" (some "D1") (some "F1") "W1" 1]
    (fun aid q hq => by
      have : JsMap.find? exSt1.agentJobQueue aid = none := rfl
      rw [this] at hq
      cases hq)
    (by decide)
    (fun j hj => rfl)

end OdmCloud
